import Mathlib

/-!
Shallow embedding of `src/lambda.py` (jeff1evesque/opensearch_customization).

The module translates the decision logic of the lambda driver: the index
existence probe `check_index`, the probe normalizers `check_index_pattern`
and `check_dashboard`, the remap engine `remap_index`, and the top-level
reconciliation driver `lambda_handler`.  Remote collaborators
(`get_indices`, `get_document_count`, `set_new_index`, `set_reindex`,
`delete_index`, `get_alert_destination`, `set_alert_destination`,
`get_monitor`, `set_monitor`, `set_index_pattern`, `set_dashboard`,
`delete_document`) are modelled by an `Oracle` record holding the value each
call returns during the invocation; mutating calls are additionally recorded
in a call trace so that theorems can speak about which remote mutations were
issued.  A raised Python exception that the code does not catch is modelled
by `Option.none` as the overall result.
-/

namespace OSC

/-- Truthiness-carrying model of a dynamically typed value returned by a
collaborator: either a string (truthy iff non-empty, Python semantics) or
some other object with a known truthiness. -/
inductive PyVal where
  | str : String → PyVal
  | obj : Bool → PyVal
deriving DecidableEq

/-- Python truthiness of a `PyVal`. -/
def PyVal.isTruthy : PyVal → Bool
  | PyVal.str s => !(s == "")
  | PyVal.obj b => b

/-- Python `!=` between a `PyVal` and a string: equal only when the value is
that very string. -/
def PyVal.neStr : PyVal → String → Bool
  | PyVal.str s, t => !(s == t)
  | PyVal.obj _, _ => true

/-- A collaborator read response: its truthiness and the value of its `id`
key when present (a Python falsy container has no keys). -/
structure GetResp where
  truthy : Bool
  id : Option String
deriving DecidableEq

/-- `check_index_pattern` (lambda.py:48-60): return `r.id` when the response
is truthy and has an `id` key, otherwise the raw response. -/
def check_index_pattern (r : GetResp) : PyVal :=
  if r.truthy then
    match r.id with
    | some s => PyVal.str s
    | none => PyVal.obj true
  else PyVal.obj false

/-- `check_dashboard` (lambda.py:63-75): same normalization as
`check_index_pattern`. -/
def check_dashboard (r : GetResp) : PyVal :=
  if r.truthy then
    match r.id with
    | some s => PyVal.str s
    | none => PyVal.obj true
  else PyVal.obj false

/-- Python `bytes.split()` with no argument: split on runs of whitespace,
producing no empty tokens.  `acc` holds the current token reversed. -/
def pySplitAux : List Char → List Char → List (List Char)
  | [], acc => if acc = [] then [] else [acc.reverse]
  | c :: rest, acc =>
    if c.isWhitespace then
      if acc = [] then pySplitAux rest []
      else acc.reverse :: pySplitAux rest []
    else pySplitAux rest (c :: acc)

/-- Whitespace tokenization of one listing line. -/
def pySplit (line : List Char) : List (List Char) := pySplitAux line []

/-- `check_index` (lambda.py:30-45): the listing returned by `get_indices`
is a sequence of lines; the index exists iff some whitespace-separated
token of some line equals the requested name exactly. -/
def check_index (listing : List (List Char)) (index : List Char) : Bool :=
  listing.any (fun line => (pySplit line).any (fun tok => tok == index))

/-- Environment of one `remap_index` call: values the remote collaborators
return during it.  `old_count` is `get_document_count` on the source index
(`0` models a falsy/absent count); `update_counts x` is the count
`get_document_count` reports for the destination index at poll attempt `x`
(1-indexed). -/
structure RemapEnv where
  old_count : Nat
  new_index_ok : Bool
  reindex_ok : Bool
  update_counts : Nat → Nat

/-- Observable outcome of one `remap_index` call: returned value, whether
`delete_index` was issued on the source index, the destination counts read
during polling (in order), and the sleeps performed (in order). -/
structure RemapResult where
  success : Bool
  deleted : Bool
  polled : List Nat
  sleeps : List Nat
deriving DecidableEq

/-- The polling loop of `remap_index` (lambda.py:112-118): `for x in
range(1, retry + 1)` with `x` the current attempt number and the second
argument the remaining attempts.  A read count that is truthy and equal to
`old_count` triggers `delete_index` and returns `True`; otherwise the loop
sleeps `x ** 2` and continues. -/
def remapPoll (old_count : Nat) (counts : Nat → Nat) : Nat → Nat → RemapResult
  | _, 0 => ⟨false, false, [], []⟩
  | x, n + 1 =>
    if counts x ≠ 0 ∧ old_count = counts x then
      ⟨true, true, [counts x], []⟩
    else
      ⟨(remapPoll old_count counts (x + 1) n).success,
       (remapPoll old_count counts (x + 1) n).deleted,
       counts x :: (remapPoll old_count counts (x + 1) n).polled,
       x ^ 2 :: (remapPoll old_count counts (x + 1) n).sleeps⟩

/-- `remap_index` (lambda.py:78-122).  With a falsy source count the index
is created directly (no polling, no deletion).  With a truthy source count
the destination is created and a reindex issued; if both succeed the
polling loop runs, else the call fails.  Falling out of the loop returns
`False` with the source left intact. -/
def remap_index (env : RemapEnv) (retry : Nat) : RemapResult :=
  if env.old_count = 0 then
    if env.new_index_ok then ⟨true, false, [], []⟩ else ⟨false, false, [], []⟩
  else
    if env.new_index_ok && env.reindex_ok then
      remapPoll env.old_count env.update_counts 1 retry
    else ⟨false, false, [], []⟩

/-- The wait that precedes poll attempt `x` (1-indexed) in a remap run: no
sleep precedes the first attempt; attempt `x ≥ 2` is preceded by the sleep
performed at the end of iteration `x - 1`. -/
def waitBefore (r : RemapResult) (x : Nat) : Nat :=
  if 2 ≤ x then r.sleeps.getD (x - 2) 0 else 0

/-- One entry of the `executions` list: either a bare boolean
(lambda.py:210,213) or a single-entry `{name: bool}` map. -/
inductive LogEntry where
  | bare : Bool → LogEntry
  | named : String → Bool → LogEntry
deriving DecidableEq

/-- The boolean recorded by an entry. -/
def LogEntry.outcome : LogEntry → Bool
  | LogEntry.bare b => b
  | LogEntry.named _ b => b

/-- Whether the entry is a named single-entry map. -/
def LogEntry.isNamed : LogEntry → Bool
  | LogEntry.bare _ => false
  | LogEntry.named _ _ => true

/-- `all(list(y.values())[0] for y in executions)` (lambda.py:413,460).
`all` consumes entries left to right and stops at the first falsy value;
evaluating `y.values()` on a bare boolean raises `AttributeError`, modelled
as `none`. -/
def verdict : List LogEntry → Option Bool
  | [] => some true
  | LogEntry.bare _ :: _ => none
  | LogEntry.named _ b :: rest => if b then verdict rest else some false

/-- A mutating remote call issued by the driver. -/
inductive Call where
  | remap : String → Option String → Call
  | set_index_pattern : Call
  | set_dashboard : Call
  | set_destination : Bool → Call
  | delete_document : Call
  | set_monitor : Option String → Call
deriving DecidableEq

/-- One hit of the `get_monitor` search response, with the fields the code
and the spec talk about. -/
structure MonitorHit where
  id : String
  index_name : String
deriving DecidableEq

/-- The `get_monitor` response: whether the top-level `hits` key is
present, whether the nested `hits` key is present, and the nested hit
list. -/
structure MonitorResp where
  has_hits : Bool
  has_inner : Bool
  inner : List MonitorHit
deriving DecidableEq

/-- The parsed fields of one inbound request that the driver's decisions
depend on (lambda.py:134-161).  `mappings` models the parsed `Mappings`
document (empty list = empty dict, falsy). -/
structure Request where
  request_type : Option String
  index : String
  mappings : List (String × String)
  init_dashboard : Bool
  sns_alert_name : String
  sns_topic_arn : String
  sns_role_arn : String
  monitor_name : String
  delete_range_nonempty : Bool
  has_stack_id : Bool

/-- The values remote collaborators return during one invocation.
`dest_lookup`/`set_destination` sit inside the sns `try` block, so a raised
exception (`Except.error`) is caught there; `dest_lookup2` is the separate
`get_alert_destination` call of the monitor block. -/
structure Oracle where
  auth_ok : Bool
  doc_count : Nat
  remap1 : RemapEnv
  remap2 : RemapEnv
  remap3 : RemapEnv
  pattern1 : GetResp
  set_index_pattern_ok : Bool
  pattern2 : GetResp
  indices : List (List Char)
  dashboard1 : GetResp
  set_dashboard_ok : Bool
  dest_lookup : Except Unit PyVal
  set_destination : Except Unit Bool
  delete_document_ok : Bool
  dest_lookup2 : PyVal
  monitor_lookup : MonitorResp
  set_monitor_ok : Bool

/-- `index.replace('*', '').rstrip('-').rstrip('_')` (lambda.py:223,309). -/
def rstripChar (c : Char) (l : List Char) : List Char :=
  (l.reverse.dropWhile (fun d => d = c)).reverse

/-- The `index_id` derived from the index name. -/
def stripIndexId (s : String) : String :=
  String.mk (rstripChar '_' (rstripChar '-' (s.data.filter (fun c => c ≠ '*'))))

/-- The Create-branch mappings block (lambda.py:200-217): with a truthy
handler-level document count, a two-phase remap through `index_temporary`
appends a bare boolean; with a falsy count a single in-place remap appends
a `{set_reindex: bool}` map. -/
def createMappings (req : Request) (o : Oracle) : List LogEntry × List Call :=
  if req.mappings ≠ [] then
    if o.doc_count ≠ 0 then
      if (remap_index o.remap1 15).success then
        ([LogEntry.bare (remap_index o.remap2 15).success],
         [Call.remap req.index (some (req.index ++ "_temporary")),
          Call.remap (req.index ++ "_temporary") (some req.index)])
      else
        ([LogEntry.bare false],
         [Call.remap req.index (some (req.index ++ "_temporary"))])
    else
      ([LogEntry.named "set_reindex" (remap_index o.remap3 15).success],
       [Call.remap req.index none])
  else ([], [])

/-- The Create-branch dashboard block (lambda.py:219-243): create the index
pattern when the current id differs from the derived id, then create the
dashboard when the (re-read) pattern id is truthy, the index exists and no
dashboard exists. -/
def createDashboard (req : Request) (o : Oracle) : List LogEntry × List Call :=
  if req.init_dashboard then
    let index_id := stripIndexId req.index
    let cur0 := check_index_pattern o.pattern1
    let step1 : List LogEntry × List Call × PyVal :=
      if cur0.neStr index_id then
        ([LogEntry.named "set_index_pattern" o.set_index_pattern_ok],
         [Call.set_index_pattern], check_index_pattern o.pattern2)
      else ([], [], cur0)
    let cur := step1.2.2
    if cur.isTruthy && check_index o.indices req.index.data
         && !(check_dashboard o.dashboard1).isTruthy then
      (step1.1 ++ [LogEntry.named "set_dashboard" o.set_dashboard_ok],
       step1.2.1 ++ [Call.set_dashboard])
    else
      (step1.1 ++ [LogEntry.named "set_dashboard" false], step1.2.1)
  else ([], [])

/-- The Update-branch dashboard block (lambda.py:305-329): identical to the
Create branch except that the pattern is only (re)created when the current
id is also truthy. -/
def updateDashboard (req : Request) (o : Oracle) : List LogEntry × List Call :=
  if req.init_dashboard then
    let index_id := stripIndexId req.index
    let cur0 := check_index_pattern o.pattern1
    let step1 : List LogEntry × List Call × PyVal :=
      if cur0.isTruthy && cur0.neStr index_id then
        ([LogEntry.named "set_index_pattern" o.set_index_pattern_ok],
         [Call.set_index_pattern], check_index_pattern o.pattern2)
      else ([], [], cur0)
    let cur := step1.2.2
    if cur.isTruthy && check_index o.indices req.index.data
         && !(check_dashboard o.dashboard1).isTruthy then
      (step1.1 ++ [LogEntry.named "set_dashboard" o.set_dashboard_ok],
       step1.2.1 ++ [Call.set_dashboard])
    else
      (step1.1 ++ [LogEntry.named "set_dashboard" false], step1.2.1)
  else ([], [])

/-- The sns destination block (lambda.py:248-270 and 334-357; `upd` is the
`update=True` keyword passed only on the Update branch).  Inside the `try`
block: read the destination, call `set_alert_destination` only when the
read value is falsy, append the truthiness of the set result (`r` stays
`None` when the destination is present); any raise is caught and appends a
`false` entry. -/
def snsBlock (req : Request) (o : Oracle) (upd : Bool) : List LogEntry × List Call :=
  if req.sns_alert_name ≠ "" ∧ req.sns_topic_arn ≠ "" ∧ req.sns_role_arn ≠ "" then
    match o.dest_lookup with
    | Except.error _ => ([LogEntry.named "set_destination" false], [])
    | Except.ok v =>
      if v.isTruthy then ([LogEntry.named "set_destination" false], [])
      else
        match o.set_destination with
        | Except.error _ =>
          ([LogEntry.named "set_destination" false], [Call.set_destination upd])
        | Except.ok b =>
          ([LogEntry.named "set_destination" b], [Call.set_destination upd])
  else ([], [])

/-- The document deletion block (lambda.py:275-277 and 362-364). -/
def deleteBlock (req : Request) (o : Oracle) : List LogEntry × List Call :=
  if req.delete_range_nonempty then
    ([LogEntry.named "delete_document" o.delete_document_ok], [Call.delete_document])
  else ([], [])

/-- The Create-branch monitor block (lambda.py:282-302): when the monitor
fields are present and the destination lookup is truthy, create the monitor
(no monitor id is passed). -/
def monitorCreate (req : Request) (o : Oracle) : List LogEntry × List Call :=
  if req.monitor_name ≠ "" ∧ req.sns_alert_name ≠ "" ∧ req.index ≠ "" then
    if (o.dest_lookup2).isTruthy then
      ([LogEntry.named "set_alert" o.set_monitor_ok], [Call.set_monitor none])
    else ([], [])
  else ([], [])

/-- The Update-branch monitor block (lambda.py:369-396): look up the
monitor; when both `hits` keys are present, `monitor['hits']['hits'][0]`
raises `IndexError` on an empty list (modelled `none`), otherwise
`monitor_id` becomes the first hit's `_index` field; the update call passes
`monitor_id` along. -/
def monitorUpdate (req : Request) (o : Oracle) :
    Option (List LogEntry × List Call) :=
  if req.monitor_name ≠ "" ∧ req.sns_alert_name ≠ "" ∧ req.index ≠ "" then
    if (o.dest_lookup2).isTruthy then
      if o.monitor_lookup.has_hits && o.monitor_lookup.has_inner then
        match o.monitor_lookup.inner with
        | [] => none
        | h :: _ =>
          some ([LogEntry.named "set_alert" o.set_monitor_ok],
                [Call.set_monitor (some h.index_name)])
      else
        some ([LogEntry.named "set_alert" o.set_monitor_ok],
              [Call.set_monitor (some "")])
    else some ([], [])
  else some ([], [])

/-- The whole Create branch (lambda.py:196-302), blocks in source order. -/
def createExec (req : Request) (o : Oracle) : List LogEntry × List Call :=
  let m := createMappings req o
  let dash := createDashboard req o
  let sns := snsBlock req o false
  let del := deleteBlock req o
  let mon := monitorCreate req o
  (m.1 ++ dash.1 ++ sns.1 ++ del.1 ++ mon.1,
   m.2 ++ dash.2 ++ sns.2 ++ del.2 ++ mon.2)

/-- The whole Update branch (lambda.py:304-396), blocks in source order;
`none` when the monitor block raises. -/
def updateExec (req : Request) (o : Oracle) :
    Option (List LogEntry × List Call) :=
  let dash := updateDashboard req o
  let sns := snsBlock req o true
  let del := deleteBlock req o
  match monitorUpdate req o with
  | none => none
  | some mon =>
    some (dash.1 ++ sns.1 ++ del.1 ++ mon.1,
          dash.2 ++ sns.2 ++ del.2 ++ mon.2)

/-- The request type after the authentication guard (lambda.py:168-183): a
raising `AWS4Auth` constructor replaces the request type by `None`. -/
def effectiveType (req : Request) (o : Oracle) : Option String :=
  if o.auth_ok then req.request_type else none

/-- The branch dispatch of the driver (lambda.py:196-403). -/
def stepExec (req : Request) (o : Oracle) :
    Option (List LogEntry × List Call) :=
  match effectiveType req o with
  | some rt =>
    if rt = "Create" then some (createExec req o)
    else if rt = "Update" then updateExec req o
    else if rt = "Delete" then some ([LogEntry.named "delete" true], [])
    else some ([], [])
  | none => some ([], [])

/-- Observable outcome of one invocation: the execution log, the mutating
calls issued, the `Status` put to the callback url (callback mode), and the
value returned to the direct caller. -/
structure HandlerResult where
  executions : List LogEntry
  calls : List Call
  response_status : Option String
  direct_result : Option Bool
deriving DecidableEq

/-- The return/callback tail of the driver (lambda.py:408-462): with a
`StackId` the verdict picks `SUCCESS`/`FAILED`; without one, Create/Update
return the verdict and anything else returns `None`.  A raising verdict
computation aborts the invocation. -/
def respond (req : Request) (o : Oracle) (log : List LogEntry)
    (calls : List Call) : Option HandlerResult :=
  if req.has_stack_id then
    match verdict log with
    | some b =>
      some ⟨log, calls, some (if b then "SUCCESS" else "FAILED"), none⟩
    | none => none
  else
    if effectiveType req o = some "Create" ∨ effectiveType req o = some "Update" then
      match verdict log with
      | some b => some ⟨log, calls, none, some b⟩
      | none => none
    else some ⟨log, calls, none, none⟩

/-- `lambda_handler` (lambda.py:125-462) over the collaborator oracle:
`none` models an uncaught exception aborting the invocation. -/
def lambda_handler (req : Request) (o : Oracle) : Option HandlerResult :=
  match stepExec req o with
  | some (log, calls) => respond req o log calls
  | none => none

/-! ## Lemmas about the remap polling loop -/

theorem remapPoll_deleted_iff (old : Nat) (counts : Nat → Nat) (x n : Nat) :
    (remapPoll old counts x n).deleted = true ↔
      ∃ c ∈ (remapPoll old counts x n).polled, c ≠ 0 ∧ old = c := by
  induction n generalizing x with
  | zero => simp [remapPoll]
  | succ n ih =>
    by_cases h : counts x ≠ 0 ∧ old = counts x
    · rw [remapPoll, if_pos h]
      constructor
      · intro _
        exact ⟨counts x, by simp, h⟩
      · intro _
        rfl
    · rw [remapPoll, if_neg h]
      constructor
      · intro hd
        obtain ⟨c, hc, hp⟩ := (ih (x + 1)).mp hd
        exact ⟨c, List.mem_cons_of_mem _ hc, hp⟩
      · rintro ⟨c, hc, hp⟩
        rcases List.mem_cons.mp hc with rfl | hc2
        · exact absurd hp h
        · exact (ih (x + 1)).mpr ⟨c, hc2, hp⟩

theorem remapPoll_no_match (old : Nat) (counts : Nat → Nat) (x n : Nat)
    (h : ∀ i, x ≤ i → i < x + n → ¬(counts i ≠ 0 ∧ old = counts i)) :
    (remapPoll old counts x n).success = false ∧
      (remapPoll old counts x n).deleted = false := by
  induction n generalizing x with
  | zero => simp [remapPoll]
  | succ n ih =>
    have hx : ¬(counts x ≠ 0 ∧ old = counts x) := h x le_rfl (by omega)
    rw [remapPoll, if_neg hx]
    exact ih (x + 1) (fun i h1 h2 => h i (by omega) (by omega))

theorem remapPoll_polled_length (old : Nat) (counts : Nat → Nat) (x n : Nat) :
    (remapPoll old counts x n).polled.length ≤ n := by
  induction n generalizing x with
  | zero => simp [remapPoll]
  | succ n ih =>
    by_cases h : counts x ≠ 0 ∧ old = counts x
    · rw [remapPoll, if_pos h]
      simp
    · rw [remapPoll, if_neg h]
      simpa using Nat.succ_le_succ (ih (x + 1))

theorem remapPoll_sleeps_getD (old : Nat) (counts : Nat → Nat) (x n : Nat) :
    ∀ i, i < (remapPoll old counts x n).sleeps.length →
      (remapPoll old counts x n).sleeps.getD i 0 = (x + i) ^ 2 := by
  induction n generalizing x with
  | zero => simp [remapPoll]
  | succ n ih =>
    by_cases h : counts x ≠ 0 ∧ old = counts x
    · rw [remapPoll, if_pos h]
      simp
    · rw [remapPoll, if_neg h]
      intro i hi
      cases i with
      | zero => simp
      | succ j =>
        simp only [List.length_cons, Nat.succ_lt_succ_iff] at hi
        have := ih (x + 1) j hi
        simpa [Nat.add_assoc, Nat.add_comm 1 j] using this

theorem remap_index_sleeps_getD (env : RemapEnv) (retry : Nat) :
    ∀ i, i < (remap_index env retry).sleeps.length →
      (remap_index env retry).sleeps.getD i 0 = (i + 1) ^ 2 := by
  rw [remap_index]
  by_cases h0 : env.old_count = 0
  · rw [if_pos h0]
    by_cases hn : env.new_index_ok = true <;> simp [hn]
  · rw [if_neg h0]
    by_cases hf : (env.new_index_ok && env.reindex_ok) = true
    · rw [if_pos hf]
      intro i hi
      have := remapPoll_sleeps_getD env.old_count env.update_counts 1 retry i hi
      simpa [Nat.add_comm 1 i] using this
    · rw [if_neg hf]
      simp

theorem remap_index_polled_length (env : RemapEnv) (retry : Nat) :
    (remap_index env retry).polled.length ≤ retry := by
  rw [remap_index]
  by_cases h0 : env.old_count = 0
  · rw [if_pos h0]
    by_cases hn : env.new_index_ok = true <;> simp [hn]
  · rw [if_neg h0]
    by_cases hf : (env.new_index_ok && env.reindex_ok) = true
    · rw [if_pos hf]
      exact remapPoll_polled_length env.old_count env.update_counts 1 retry
    · rw [if_neg hf]
      simp

/-! ## C1: remap safety -/

/-- C1: for every remap invocation (any source document count, any
collaborator outcomes and any sequence of destination counts observed
during polling), the source index is deleted if and only if some polled
destination count is non-zero and equals the pre-migration source count;
and when the retry budget is exhausted without such an observation the
call returns failure and the source index is not deleted. -/
theorem C1_remap_safety (env : RemapEnv) (retry : Nat) :
    ((remap_index env retry).deleted = true ↔
      ∃ c ∈ (remap_index env retry).polled, c ≠ 0 ∧ env.old_count = c) ∧
    (env.old_count ≠ 0 → env.new_index_ok = true → env.reindex_ok = true →
      (∀ i, i ≤ retry → 1 ≤ i →
        ¬(env.update_counts i ≠ 0 ∧ env.old_count = env.update_counts i)) →
      (remap_index env retry).success = false ∧
        (remap_index env retry).deleted = false) := by
  by_cases h0 : env.old_count = 0
  · constructor
    · rw [remap_index, if_pos h0]
      by_cases hn : env.new_index_ok = true <;> simp [hn]
    · intro h
      exact absurd h0 h
  · by_cases hf : (env.new_index_ok && env.reindex_ok) = true
    · have heq : remap_index env retry =
          remapPoll env.old_count env.update_counts 1 retry := by
        rw [remap_index, if_neg h0, if_pos hf]
      rw [heq]
      constructor
      · exact remapPoll_deleted_iff env.old_count env.update_counts 1 retry
      · intro _ _ _ hno
        exact remapPoll_no_match env.old_count env.update_counts 1 retry
          (fun i h1 h2 => hno i (by omega) h1)
    · have heq : remap_index env retry = ⟨false, false, [], []⟩ := by
        rw [remap_index, if_neg h0, if_neg hf]
      rw [heq]
      constructor
      · simp
      · intro _ hn hr _
        exact absurd (by simp [hn, hr]) hf

/-- Remap environment converging at the second poll attempt. -/
def envC1conv : RemapEnv := ⟨5, true, true, fun x => if x = 2 then 5 else 3⟩

/-- Remap environment that never converges. -/
def envC1stall : RemapEnv := ⟨5, true, true, fun _ => 3⟩

theorem C1_remap_safety_witness :
    (remap_index envC1conv 15).deleted = true ∧
      (remap_index envC1stall 15).success = false ∧
      (remap_index envC1stall 15).deleted = false := by
  refine ⟨(C1_remap_safety envC1conv 15).1.mpr (by decide),
    (C1_remap_safety envC1stall 15).2 (by decide) rfl rfl (by decide)⟩

/-! ## C7: polling attempts and backoff schedule -/

/-- C7 (amended): the polling loop performs at most `retry` count-read
attempts; no wait precedes the first attempt, and the wait preceding poll
attempt `x ≥ 2` (the sleep performed at the end of iteration `x - 1`) is
exactly `(x - 1) ^ 2` time units. -/
theorem C7_backoff (env : RemapEnv) (retry : Nat) :
    (remap_index env retry).polled.length ≤ retry ∧
    waitBefore (remap_index env retry) 1 = 0 ∧
    (∀ x, 2 ≤ x → x - 2 < (remap_index env retry).sleeps.length →
      waitBefore (remap_index env retry) x = (x - 1) ^ 2) := by
  refine ⟨remap_index_polled_length env retry, by simp [waitBefore], ?_⟩
  intro x hx hlen
  rw [waitBefore, if_pos hx]
  have := remap_index_sleeps_getD env retry (x - 2) hlen
  rw [this]
  congr 1
  omega

/-- Remap environment for the C7 backoff counterexample. -/
def envC7c : RemapEnv := ⟨5, true, true, fun _ => 3⟩

/-- C7 (counterexample): in a remap run of retry budget 3 whose counts
never converge, poll attempt 2 happens, but the wait that precedes it is
`1` time unit (the sleep after attempt 1), not `2 ^ 2` as the claim
states. -/
theorem C7_backoff_counterexample :
    (remap_index envC7c 3).polled.length = 3 ∧
      (remap_index envC7c 3).sleeps = [1, 4, 9] ∧
      waitBefore (remap_index envC7c 3) 2 = 1 ∧ (1 : Nat) ≠ 2 ^ 2 := by
  decide

/-- Remap environment for the C7 witness. -/
def envC7w : RemapEnv := ⟨5, true, true, fun _ => 3⟩

theorem C7_backoff_witness :
    waitBefore (remap_index envC7w 3) 3 = (3 - 1) ^ 2 :=
  (C7_backoff envC7w 3).2.2 3 (by decide) (by decide)

/-! ## C8: exact-token index existence check -/

theorem pySplitAux_tokens (l : List Char) :
    ∀ acc, (∀ c ∈ acc, c.isWhitespace = false) →
      ∀ t ∈ pySplitAux l acc, t ≠ [] ∧ ∀ c ∈ t, c.isWhitespace = false := by
  induction l with
  | nil =>
    intro acc hacc t ht
    rw [pySplitAux] at ht
    by_cases h : acc = []
    · rw [if_pos h] at ht
      simp at ht
    · rw [if_neg h] at ht
      simp only [List.mem_singleton] at ht
      subst ht
      refine ⟨by simpa using h, ?_⟩
      intro c hc
      exact hacc c (List.mem_reverse.mp hc)
  | cons c rest ih =>
    intro acc hacc t ht
    rw [pySplitAux] at ht
    by_cases hw : c.isWhitespace = true
    · rw [if_pos hw] at ht
      by_cases h : acc = []
      · rw [if_pos h] at ht
        exact ih [] (by simp) t ht
      · rw [if_neg h] at ht
        rcases List.mem_cons.mp ht with rfl | ht2
        · refine ⟨by simpa using h, ?_⟩
          intro d hd
          exact hacc d (List.mem_reverse.mp hd)
        · exact ih [] (by simp) t ht2
    · rw [if_neg hw] at ht
      refine ih (c :: acc) ?_ t ht
      intro d hd
      rcases List.mem_cons.mp hd with rfl | hd2
      · simpa using hw
      · exact hacc d hd2

/-- C8: `check_index` returns true if and only if some whitespace-separated
token of some line of the listing equals the requested name exactly; every
token produced by the tokenizer is a non-empty run of non-whitespace
characters, so a listing holding the name only as a proper substring of a
token (concretely, `my-index` inside `my-index-v2`) yields false. -/
theorem C8_check_index :
    (∀ (listing : List (List Char)) (index : List Char),
      check_index listing index = true ↔
        ∃ line ∈ listing, index ∈ pySplit line) ∧
    (∀ (line : List Char), ∀ t ∈ pySplit line,
      t ≠ [] ∧ ∀ c ∈ t, c.isWhitespace = false) ∧
    check_index [String.toList "green open my-index-v2 1 5"]
      (String.toList "my-index") = false := by
  refine ⟨?_, ?_, by decide⟩
  · intro listing index
    simp [check_index, List.any_eq_true]
  · intro line t ht
    exact pySplitAux_tokens line [] (by simp) t ht

theorem C8_check_index_witness :
    check_index [String.toList "green open my-index 1 5"]
      (String.toList "my-index") = true :=
  (C8_check_index.1 _ _).mpr (by decide)

/-! ## Lemmas about the verdict and the driver tail -/

theorem verdict_all_named (log : List LogEntry)
    (h : ∀ e ∈ log, e.isNamed = true) :
    verdict log = some (log.all LogEntry.outcome) := by
  induction log with
  | nil => rfl
  | cons e rest ih =>
    cases e with
    | bare b =>
      have hb := h _ (List.mem_cons_self _ _)
      simp [LogEntry.isNamed] at hb
    | named s b =>
      cases b with
      | false => simp [verdict, LogEntry.outcome]
      | true =>
        have := ih (fun e he => h e (List.mem_cons_of_mem _ he))
        simp [verdict, LogEntry.outcome, this]

theorem respond_executions_calls (req : Request) (o : Oracle)
    (log : List LogEntry) (calls : List Call) (res : HandlerResult)
    (h : respond req o log calls = some res) :
    res.executions = log ∧ res.calls = calls := by
  by_cases hs : req.has_stack_id = true
  · rw [respond, if_pos hs] at h
    cases hv : verdict log with
    | none =>
      rw [hv] at h
      exact absurd h (by simp)
    | some b =>
      rw [hv] at h
      simp only [Option.some.injEq] at h
      subst h
      exact ⟨rfl, rfl⟩
  · rw [respond, if_neg hs] at h
    by_cases hc : (effectiveType req o = some "Create" ∨
        effectiveType req o = some "Update")
    · rw [if_pos hc] at h
      cases hv : verdict log with
      | none =>
        rw [hv] at h
        exact absurd h (by simp)
      | some b =>
        rw [hv] at h
        simp only [Option.some.injEq] at h
        subst h
        exact ⟨rfl, rfl⟩
    · rw [if_neg hc] at h
      simp only [Option.some.injEq] at h
      subst h
      exact ⟨rfl, rfl⟩

theorem respond_stack_status (req : Request) (o : Oracle)
    (log : List LogEntry) (calls : List Call) (res : HandlerResult)
    (hs : req.has_stack_id = true)
    (h : respond req o log calls = some res) :
    ∃ b, verdict log = some b ∧
      res.response_status = some (if b then "SUCCESS" else "FAILED") := by
  rw [respond, if_pos hs] at h
  cases hv : verdict log with
  | none =>
    rw [hv] at h
    exact absurd h (by simp)
  | some b =>
    rw [hv] at h
    simp only [Option.some.injEq] at h
    subst h
    exact ⟨b, rfl, rfl⟩

theorem lambda_handler_inv (req : Request) (o : Oracle) (res : HandlerResult)
    (h : lambda_handler req o = some res) :
    ∃ log calls, stepExec req o = some (log, calls) ∧
      respond req o log calls = some res := by
  rw [lambda_handler] at h
  cases hst : stepExec req o with
  | none =>
    rw [hst] at h
    exact absurd h (by simp)
  | some p =>
    obtain ⟨log, calls⟩ := p
    rw [hst] at h
    exact ⟨log, calls, rfl, h⟩

/-! ## C2: the aggregate verdict -/

/-- C2 (amended): for every invocation whose execution log holds only named
single-entry map entries (every log the driver can produce except those of
the Create remap-with-data path, whose bare booleans abort the verdict
computation), the reported `Status` in callback mode is `SUCCESS` if and
only if every recorded boolean is true, and an empty log yields
`SUCCESS`. -/
theorem C2_verdict (req : Request) (o : Oracle) (res : HandlerResult)
    (h : lambda_handler req o = some res)
    (hn : ∀ e ∈ res.executions, e.isNamed = true)
    (hs : req.has_stack_id = true) :
    (res.response_status = some "SUCCESS" ↔
      ∀ e ∈ res.executions, e.outcome = true) ∧
    (res.executions = [] → res.response_status = some "SUCCESS") := by
  obtain ⟨log, calls, hstep, hresp⟩ := lambda_handler_inv req o res h
  obtain ⟨he, hc⟩ := respond_executions_calls req o log calls res hresp
  obtain ⟨b, hv, hstat⟩ := respond_stack_status req o log calls res hs hresp
  rw [← he] at hv
  have hv2 : verdict res.executions = some (res.executions.all LogEntry.outcome) :=
    verdict_all_named res.executions hn
  have hb : b = res.executions.all LogEntry.outcome :=
    Option.some.inj (hv.symm.trans hv2)
  subst hb
  constructor
  · rw [hstat]
    cases hall : res.executions.all LogEntry.outcome with
    | true =>
      constructor
      · intro _
        exact List.all_eq_true.mp hall
      · intro _
        rfl
    | false =>
      constructor
      · intro hfs
        exact absurd hfs (by decide)
      · intro hout
        exact absurd (List.all_eq_true.mpr hout) (by simp [hall])
  · intro hemp
    rw [hstat, hemp]
    rfl

/-- Collaborator oracle with neutral outcomes, used by the concrete
invocation scenarios below. -/
def oBase : Oracle :=
  ⟨true, 0, ⟨0, true, true, fun _ => 0⟩, ⟨0, true, true, fun _ => 0⟩,
   ⟨0, true, true, fun _ => 0⟩, ⟨false, none⟩, true, ⟨false, none⟩, [],
   ⟨false, none⟩, true, Except.ok (PyVal.obj false), Except.ok true, true,
   PyVal.obj false, ⟨false, false, []⟩, true⟩

/-- Delete request in callback mode. -/
def reqC2w : Request :=
  ⟨some "Delete", "", [], false, "", "", "", "", false, true⟩

theorem C2_verdict_witness :
    ∃ res, lambda_handler reqC2w oBase = some res ∧
      res.response_status = some "SUCCESS" := by
  refine ⟨⟨[LogEntry.named "delete" true], [], some "SUCCESS", none⟩, rfl, ?_⟩
  exact ((C2_verdict reqC2w oBase
    ⟨[LogEntry.named "delete" true], [], some "SUCCESS", none⟩
    rfl (by decide) rfl).1).mpr (by decide)

/-- Create request with a mapping change, in callback mode. -/
def reqC2c : Request :=
  ⟨some "Create", "idx", [("properties", "keyword")], false, "", "", "", "",
   false, true⟩

/-- Oracle for the C2 counterexample: 100 source documents and converging
remaps, so the remap step appends the bare boolean `True`. -/
def oC2c : Oracle :=
  ⟨true, 100, ⟨100, true, true, fun _ => 100⟩, ⟨100, true, true, fun _ => 100⟩,
   ⟨0, true, true, fun _ => 0⟩, ⟨false, none⟩, true, ⟨false, none⟩, [],
   ⟨false, none⟩, true, Except.ok (PyVal.obj false), Except.ok true, true,
   PyVal.obj false, ⟨false, false, []⟩, true⟩

/-- C2 (counterexample): a log the driver itself produces — a Create with a
mapping change and a non-empty source — holds the bare boolean `True`, its
every recorded outcome is true, yet the invocation reports no `Status` at
all: the verdict computation raises on the bare entry and the invocation
aborts. -/
theorem C2_verdict_counterexample :
    (createExec reqC2c oC2c).1 = [LogEntry.bare true] ∧
      verdict [LogEntry.bare true] = none ∧
      lambda_handler reqC2c oC2c = none := by
  decide

/-! ## C3: authentication failure -/

/-- C3 (amended): when the signing-credential construction fails, no
downstream reconciliation step runs (no mutating call is issued and the
execution log stays empty), but the invocation then reports the vacuous
`Status` `SUCCESS` in callback mode, not `FAILED`. -/
theorem C3_auth (req : Request) (o : Oracle) (res : HandlerResult)
    (ha : o.auth_ok = false) (h : lambda_handler req o = some res) :
    res.executions = [] ∧ res.calls = [] ∧
      (req.has_stack_id = true → res.response_status = some "SUCCESS") := by
  have hstep : stepExec req o = some ([], []) := by
    rw [stepExec, effectiveType, ha]
    simp
  rw [lambda_handler, hstep] at h
  obtain ⟨he, hc⟩ := respond_executions_calls req o [] [] res h
  refine ⟨he, hc, fun hs => ?_⟩
  obtain ⟨b, hv, hstat⟩ := respond_stack_status req o [] [] res hs h
  have hb : b = true := by
    simp only [verdict, Option.some.injEq] at hv
    exact hv.symm
  rw [hstat, hb]
  rfl

/-- Fully populated Create request in callback mode, for the C3 witness. -/
def reqC3w : Request :=
  ⟨some "Create", "idx", [("a", "b")], true, "alert", "topic", "role", "mon",
   true, true⟩

/-- Oracle whose `AWS4Auth` construction raises. -/
def oC3w : Oracle := { oBase with auth_ok := false }

theorem C3_auth_witness :
    ∃ res, lambda_handler reqC3w oC3w = some res ∧
      res.executions = [] ∧ res.calls = [] ∧
      res.response_status = some "SUCCESS" := by
  refine ⟨⟨[], [], some "SUCCESS", none⟩, rfl, ?_⟩
  have h := C3_auth reqC3w oC3w ⟨[], [], some "SUCCESS", none⟩ rfl rfl
  exact ⟨h.1, h.2.1, h.2.2 rfl⟩

/-- Update request in callback mode, for the C3 counterexample. -/
def reqC3c : Request :=
  ⟨some "Update", "idx", [], false, "", "", "", "", false, true⟩

/-- Oracle whose `AWS4Auth` construction raises, C3 counterexample. -/
def oC3c : Oracle := { oBase with auth_ok := false }

/-- C3 (counterexample): with a raising `AWS4Auth` constructor in callback
mode, the driver reports `Status` `SUCCESS` (the empty-log vacuous
verdict), not the failure verdict the claim requires. -/
theorem C3_auth_counterexample :
    lambda_handler reqC3c oC3c = some ⟨[], [], some "SUCCESS", none⟩ ∧
      (some "SUCCESS" : Option String) ≠ some "FAILED" := by
  decide

/-! ## Lemmas about the calls each Update block can issue -/

theorem updateDashboard_calls (req : Request) (o : Oracle) :
    ∀ c ∈ (updateDashboard req o).2,
      c = Call.set_index_pattern ∨ c = Call.set_dashboard := by
  intro c hc
  rw [updateDashboard] at hc
  split at hc
  · dsimp only at hc
    split at hc <;> split at hc <;> simp_all
  · simp at hc

theorem snsBlock_calls (req : Request) (o : Oracle) (u : Bool) :
    ∀ c ∈ (snsBlock req o u).2, c = Call.set_destination u := by
  intro c hc
  rw [snsBlock] at hc
  split at hc
  · cases hd : o.dest_lookup with
    | error e =>
      rw [hd] at hc
      simp at hc
    | ok v =>
      rw [hd] at hc
      dsimp only at hc
      split at hc
      · simp at hc
      · cases hsd : o.set_destination with
        | error e =>
          rw [hsd] at hc
          simp_all
        | ok b =>
          rw [hsd] at hc
          simp_all
  · simp at hc

theorem deleteBlock_calls (req : Request) (o : Oracle) :
    ∀ c ∈ (deleteBlock req o).2, c = Call.delete_document := by
  intro c hc
  rw [deleteBlock] at hc
  split at hc <;> simp_all

theorem monitorUpdate_calls (req : Request) (o : Oracle)
    (p : List LogEntry × List Call) (h : monitorUpdate req o = some p) :
    ∀ c ∈ p.2, ∃ m, c = Call.set_monitor m := by
  intro c hc
  rw [monitorUpdate] at h
  split at h
  · split at h
    · split at h
      · cases hm : o.monitor_lookup.inner with
        | nil =>
          rw [hm] at h
          simp at h
        | cons hd tl =>
          rw [hm] at h
          simp only [Option.some.injEq] at h
          subst h
          simp_all
      · simp only [Option.some.injEq] at h
        subst h
        simp_all
    · simp only [Option.some.injEq] at h
      subst h
      simp at hc
  · simp only [Option.some.injEq] at h
    subst h
    simp at hc

theorem updateExec_calls (req : Request) (o : Oracle)
    (log : List LogEntry) (calls : List Call)
    (h : updateExec req o = some (log, calls)) :
    ∃ mon, monitorUpdate req o = some mon ∧
      calls = (updateDashboard req o).2 ++ (snsBlock req o true).2 ++
        (deleteBlock req o).2 ++ mon.2 ∧
      log = (updateDashboard req o).1 ++ (snsBlock req o true).1 ++
        (deleteBlock req o).1 ++ mon.1 := by
  rw [updateExec] at h
  cases hm : monitorUpdate req o with
  | none =>
    rw [hm] at h
    simp at h
  | some mon =>
    rw [hm] at h
    dsimp only at h
    simp only [Option.some.injEq, Prod.mk.injEq] at h
    exact ⟨mon, rfl, h.2.symm, h.1.symm⟩

theorem stepExec_update (req : Request) (o : Oracle)
    (hrt : req.request_type = some "Update") (ha : o.auth_ok = true) :
    stepExec req o = updateExec req o := by
  have heff : effectiveType req o = some "Update" := by
    rw [effectiveType, if_pos ha, hrt]
  rw [stepExec, heff]
  dsimp only
  rw [if_neg (by decide), if_pos rfl]

/-! ## C4: remap on Update requests -/

/-- C4 (amended): only a Create request with a non-empty `Mappings` field
invokes the remap engine; an Update request never invokes it, whatever its
fields, because the Update branch of the driver has no mappings block at
all. -/
theorem C4_update_no_remap :
    (∀ (req : Request) (o : Oracle), req.mappings ≠ [] →
      ∃ d, Call.remap req.index d ∈ (createExec req o).2) ∧
    (∀ (req : Request) (o : Oracle) (res : HandlerResult),
      req.request_type = some "Update" → lambda_handler req o = some res →
      ∀ s d, Call.remap s d ∉ res.calls) := by
  constructor
  · intro req o hm
    rw [createExec]
    dsimp only
    rw [createMappings, if_pos hm]
    by_cases h1 : o.doc_count ≠ 0
    · rw [if_pos h1]
      by_cases h2 : (remap_index o.remap1 15).success = true
      · rw [if_pos h2]
        exact ⟨some (req.index ++ "_temporary"), by simp⟩
      · rw [if_neg h2]
        exact ⟨some (req.index ++ "_temporary"), by simp⟩
    · rw [if_neg h1]
      exact ⟨none, by simp⟩
  · intro req o res hrt h s d hmem
    obtain ⟨log, calls, hstep, hresp⟩ := lambda_handler_inv req o res h
    obtain ⟨_, hc⟩ := respond_executions_calls req o log calls res hresp
    rw [hc] at hmem
    by_cases ha : o.auth_ok = true
    · rw [stepExec_update req o hrt ha] at hstep
      obtain ⟨mon, hm, hcalls, _⟩ := updateExec_calls req o log calls hstep
      rw [hcalls] at hmem
      simp only [List.mem_append] at hmem
      rcases hmem with ((h1 | h2) | h3) | h4
      · rcases updateDashboard_calls req o _ h1 with hh | hh <;>
          exact Call.noConfusion hh
      · exact Call.noConfusion (snsBlock_calls req o true _ h2)
      · exact Call.noConfusion (deleteBlock_calls req o _ h3)
      · obtain ⟨m, hh⟩ := monitorUpdate_calls req o mon hm _ h4
        exact Call.noConfusion hh
    · have heff : effectiveType req o = none := by
        rw [effectiveType, if_neg ha]
      rw [stepExec, heff] at hstep
      simp only [Option.some.injEq, Prod.mk.injEq] at hstep
      rw [← hstep.2] at hmem
      simp at hmem

/-- Create request with a non-empty mapping, for the C4 witness. -/
def reqC4w : Request :=
  ⟨some "Create", "idx", [("a", "b")], false, "", "", "", "", false, false⟩

/-- Update request without optional fields, for the C4 witness. -/
def reqC4w2 : Request :=
  ⟨some "Update", "idx", [], false, "", "", "", "", false, true⟩

theorem C4_update_no_remap_witness :
    (∃ d, Call.remap "idx" d ∈ (createExec reqC4w oBase).2) ∧
      Call.remap "x" none ∉
        (HandlerResult.mk [] [] (some "SUCCESS") none).calls :=
  ⟨C4_update_no_remap.1 reqC4w oBase (by decide),
   C4_update_no_remap.2 reqC4w2 oBase ⟨[], [], some "SUCCESS", none⟩
     rfl rfl "x" none⟩

/-- Update request with a non-empty mapping, for the C4 counterexample. -/
def reqC4c : Request :=
  ⟨some "Update", "idxc", [("properties", "p")], false, "", "", "", "",
   false, true⟩

/-- C4 (counterexample): an Update request with a non-empty `Mappings`
field completes with an empty call trace — the remap engine is never
invoked on Update. -/
theorem C4_update_counterexample :
    reqC4c.mappings ≠ [] ∧
      lambda_handler reqC4c oBase = some ⟨[], [], some "SUCCESS", none⟩ := by
  decide

/-! ## C5: alert destination on Update -/

theorem snsBlock_present (req : Request) (o : Oracle) (u : Bool) (v : PyVal)
    (h1 : req.sns_alert_name ≠ "") (h2 : req.sns_topic_arn ≠ "")
    (h3 : req.sns_role_arn ≠ "") (hd : o.dest_lookup = Except.ok v)
    (hv : v.isTruthy = true) :
    snsBlock req o u = ([LogEntry.named "set_destination" false], []) := by
  rw [snsBlock, if_pos ⟨h1, h2, h3⟩, hd]
  dsimp only
  rw [if_pos hv]

theorem snsBlock_absent (req : Request) (o : Oracle) (u : Bool) (v : PyVal)
    (h1 : req.sns_alert_name ≠ "") (h2 : req.sns_topic_arn ≠ "")
    (h3 : req.sns_role_arn ≠ "") (hd : o.dest_lookup = Except.ok v)
    (hv : v.isTruthy = false) :
    (snsBlock req o u).2 = [Call.set_destination u] := by
  rw [snsBlock, if_pos ⟨h1, h2, h3⟩, hd]
  dsimp only
  rw [if_neg (by simp [hv])]
  cases hsd : o.set_destination with
  | error e => rfl
  | ok b => rfl

/-- C5 (amended): on an Update request with all three SNS fields present,
when the destination lookup returns a truthy (present) destination, no
`set_alert_destination` call is issued at all and the log records
`set_destination: false`; the set call (carrying the update flag) is
issued only when the lookup returns a falsy (absent) destination. -/
theorem C5_destination (req : Request) (o : Oracle) (res : HandlerResult)
    (v : PyVal)
    (hrt : req.request_type = some "Update") (ha : o.auth_ok = true)
    (h1 : req.sns_alert_name ≠ "") (h2 : req.sns_topic_arn ≠ "")
    (h3 : req.sns_role_arn ≠ "") (hd : o.dest_lookup = Except.ok v)
    (h : lambda_handler req o = some res) :
    (v.isTruthy = true →
      (∀ u, Call.set_destination u ∉ res.calls) ∧
      LogEntry.named "set_destination" false ∈ res.executions) ∧
    (v.isTruthy = false → Call.set_destination true ∈ res.calls) := by
  obtain ⟨log, calls, hstep, hresp⟩ := lambda_handler_inv req o res h
  obtain ⟨he, hc⟩ := respond_executions_calls req o log calls res hresp
  rw [stepExec_update req o hrt ha] at hstep
  obtain ⟨mon, hm, hcalls, hlog⟩ := updateExec_calls req o log calls hstep
  constructor
  · intro hv
    have hsns := snsBlock_present req o true v h1 h2 h3 hd hv
    constructor
    · intro u hmem
      rw [hc, hcalls, hsns] at hmem
      simp only [List.mem_append] at hmem
      rcases hmem with ((ha1 | ha2) | ha3) | ha4
      · rcases updateDashboard_calls req o _ ha1 with hh | hh <;>
          exact Call.noConfusion hh
      · simp at ha2
      · exact Call.noConfusion (deleteBlock_calls req o _ ha3)
      · obtain ⟨m, hh⟩ := monitorUpdate_calls req o mon hm _ ha4
        exact Call.noConfusion hh
    · rw [he, hlog, hsns]
      simp
  · intro hv
    have hsns := snsBlock_absent req o true v h1 h2 h3 hd hv
    rw [hc, hcalls]
    simp [hsns]

/-- Update request with all three SNS fields, for the C5 witness. -/
def reqC5w : Request :=
  ⟨some "Update", "i", [], false, "a", "t", "r", "", false, true⟩

/-- Oracle whose destination lookup finds a present destination. -/
def oC5wP : Oracle :=
  ⟨true, 0, ⟨0, true, true, fun _ => 0⟩, ⟨0, true, true, fun _ => 0⟩,
   ⟨0, true, true, fun _ => 0⟩, ⟨false, none⟩, true, ⟨false, none⟩, [],
   ⟨false, none⟩, true, Except.ok (PyVal.str "d"), Except.ok true, true,
   PyVal.obj false, ⟨false, false, []⟩, true⟩

/-- Oracle whose destination lookup finds no destination. -/
def oC5wA : Oracle :=
  ⟨true, 0, ⟨0, true, true, fun _ => 0⟩, ⟨0, true, true, fun _ => 0⟩,
   ⟨0, true, true, fun _ => 0⟩, ⟨false, none⟩, true, ⟨false, none⟩, [],
   ⟨false, none⟩, true, Except.ok (PyVal.obj false), Except.ok true, true,
   PyVal.obj false, ⟨false, false, []⟩, true⟩

theorem C5_destination_witness :
    Call.set_destination true ∉
      (HandlerResult.mk [LogEntry.named "set_destination" false] []
        (some "FAILED") none).calls ∧
    Call.set_destination true ∈
      (HandlerResult.mk [LogEntry.named "set_destination" true]
        [Call.set_destination true] (some "SUCCESS") none).calls :=
  ⟨((C5_destination reqC5w oC5wP
      ⟨[LogEntry.named "set_destination" false], [], some "FAILED", none⟩
      (PyVal.str "d") rfl rfl (by decide) (by decide) (by decide) rfl
      rfl).1 rfl).1 true,
   (C5_destination reqC5w oC5wA
      ⟨[LogEntry.named "set_destination" true], [Call.set_destination true],
        some "SUCCESS", none⟩
      (PyVal.obj false) rfl rfl (by decide) (by decide) (by decide) rfl
      rfl).2 rfl⟩

/-- Update request with all three SNS fields, for the C5 counterexample. -/
def reqC5c : Request :=
  ⟨some "Update", "i", [], false, "alert", "topic", "role", "", false, true⟩

/-- Oracle whose destination lookup finds a present destination, for the
C5 counterexample. -/
def oC5c : Oracle :=
  ⟨true, 0, ⟨0, true, true, fun _ => 0⟩, ⟨0, true, true, fun _ => 0⟩,
   ⟨0, true, true, fun _ => 0⟩, ⟨false, none⟩, true, ⟨false, none⟩, [],
   ⟨false, none⟩, true, Except.ok (PyVal.str "exists"), Except.ok true, true,
   PyVal.obj false, ⟨false, false, []⟩, true⟩

/-- C5 (counterexample): on an Update whose destination lookup returns a
present destination, the call trace is empty — no update call to
`set_alert_destination` is issued, contrary to the claim. -/
theorem C5_destination_counterexample :
    oC5c.dest_lookup = Except.ok (PyVal.str "exists") ∧
      (PyVal.str "exists").isTruthy = true ∧
      lambda_handler reqC5c oC5c =
        some ⟨[LogEntry.named "set_destination" false], [],
          some "FAILED", none⟩ :=
  ⟨rfl, rfl, by decide⟩

/-! ## C6: the identifier carried by the monitor update call -/

/-- Update request exercising the monitor block. -/
def reqC6 : Request :=
  ⟨some "Update", "idx", [], false, "alert", "", "", "mon", false, false⟩

/-- Oracle whose monitor lookup returns one hit whose id is `mon-123` and
whose `_index` field is the alerting configuration index name. -/
def oC6 : Oracle :=
  ⟨true, 0, ⟨0, true, true, fun _ => 0⟩, ⟨0, true, true, fun _ => 0⟩,
   ⟨0, true, true, fun _ => 0⟩, ⟨false, none⟩, true, ⟨false, none⟩, [],
   ⟨false, none⟩, true, Except.ok (PyVal.obj false), Except.ok true, true,
   PyVal.str "dest-1", ⟨true, true, [⟨"mon-123", ".opendistro-alerting-config"⟩]⟩,
   true⟩

/-- C6 (code bug): the monitor lookup returns a non-empty hit list whose
hit has id `mon-123`, but the update call carries the hit's `_index` field
`.opendistro-alerting-config` as the monitor identifier (lambda.py:377
reads `['_index']`), not the hit's id. -/
theorem C6_monitor_id_bug :
    oC6.monitor_lookup.inner =
      [⟨"mon-123", ".opendistro-alerting-config"⟩] ∧
    lambda_handler reqC6 oC6 =
      some ⟨[LogEntry.named "set_alert" true],
        [Call.set_monitor (some ".opendistro-alerting-config")], none,
        some true⟩ ∧
    Call.set_monitor (some "mon-123") ∉
      [Call.set_monitor (some ".opendistro-alerting-config")] := by
  decide

/-! ## C9: bare booleans and the verdict computation -/

/-- Create request with a mapping change in callback mode. -/
def reqC9 : Request :=
  ⟨some "Create", "idx", [("properties", "keyword")], false, "", "", "", "",
   false, true⟩

/-- Oracle with a positive source document count and converging remaps. -/
def oC9 : Oracle :=
  ⟨true, 100, ⟨100, true, true, fun _ => 100⟩, ⟨100, true, true, fun _ => 100⟩,
   ⟨0, true, true, fun _ => 0⟩, ⟨false, none⟩, true, ⟨false, none⟩, [],
   ⟨false, none⟩, true, Except.ok (PyVal.obj false), Except.ok true, true,
   PyVal.obj false, ⟨false, false, []⟩, true⟩

/-- C9 (code bug): on a Create with a non-empty mapping and a positive
source count the remap step appends the bare boolean `True`
(lambda.py:210), and the verdict computation, which calls `.values()` on
every entry, raises on it: no `Status` is produced and the invocation
aborts, so the computation is not total over this log. -/
theorem C9_bare_entries_bug :
    (createExec reqC9 oC9).1 = [LogEntry.bare true] ∧
      verdict [LogEntry.bare true] = none ∧
      lambda_handler reqC9 oC9 = none := by
  decide

/-! ## C10: monitor lookup with an empty hit list -/

/-- Update request exercising the monitor block in callback mode. -/
def reqC10 : Request :=
  ⟨some "Update", "idx", [], false, "alert", "", "", "mon", false, true⟩

/-- Oracle whose monitor lookup has both `hits` keys but an empty inner
hit list. -/
def oC10 : Oracle :=
  ⟨true, 0, ⟨0, true, true, fun _ => 0⟩, ⟨0, true, true, fun _ => 0⟩,
   ⟨0, true, true, fun _ => 0⟩, ⟨false, none⟩, true, ⟨false, none⟩, [],
   ⟨false, none⟩, true, Except.ok (PyVal.obj false), Except.ok true, true,
   PyVal.str "dest-1", ⟨true, true, []⟩, true⟩

/-- C10 (code bug): when the monitor lookup response has both `hits` keys
but the inner hit list is empty, indexing element 0 raises `IndexError`
(lambda.py:377) and the invocation aborts — the extraction is not total
and the step does not proceed with an empty identifier. -/
theorem C10_empty_hits_bug :
    oC10.monitor_lookup.inner = [] ∧
      monitorUpdate reqC10 oC10 = none ∧
      lambda_handler reqC10 oC10 = none := by
  decide

end OSC
